import Mathlib

/-!
Shallow embedding of the DDR5 power-estimation engine.

Sources embedded here:
  - `src/src/parser.py`            : specification / workload data model and JSON ingestion
  - `src/core/src/core_model.py`   : `DDR5CorePowerModel.compute`
  - `src/core/src/interface_model.py` : `DDR5InterfacePowerModel` (termination helpers, pin
    counts, `compute`)
  - `src/src/interface_model.py`   : channel-level `InterfacePowerModel` used by the DIMM
  - `src/src/ddr5.py`              : `DDR5.compute_core / compute_interface / compute_all`
  - `src/src/dimm.py`              : `DIMM.compute_all` (Counter-based key-wise summation)

Modelling conventions: Python floats are embedded as `ℚ` (exact arithmetic; every claimed
"within 1e-9 relative tolerance" equality is established exactly), Python ints as `ℤ` or `ℕ`
where the source value is provably non-negative.  Fallible Python code (raising exceptions)
is embedded as `Except PyErr _`, with one `PyErr` constructor per builtin exception type the
embedded code can actually raise.  Dictionaries whose key sets matter (the DIMM's
Counter-merged breakdowns) are embedded as lookup functions `String → Option ℚ`.
-/

/-- Builtin Python exception kinds raisable by the embedded code paths:
`ZeroDivisionError` (float division by zero), `KeyError` (missing dict key, carrying the
key), `ValueError` (carrying the offending string or message), and `TypeError`
(operation on a value of the wrong type, e.g. subscripting `None`). -/
inductive PyErr where
  | zeroDivisionError : PyErr
  | keyError : String → PyErr
  | valueError : String → PyErr
  | typeError : PyErr
deriving DecidableEq

/-- Dataclass `MemArchitectureSpec` of `src/src/parser.py` (static DRAM geometry). -/
structure MemArchitectureSpec where
  width : ℤ
  nbrOfBanks : ℤ
  nbrOfBankGroups : ℤ
  nbrOfRanks : ℤ
  nbrOfColumns : ℤ
  nbrOfRows : ℤ
  burstLength : ℤ
  dataRate : ℤ
deriving DecidableEq

/-- Dataclass `MemPowerSpec` of `src/src/parser.py` (rail voltages and IDD/IPP currents). -/
structure MemPowerSpec where
  vdd : ℚ
  vpp : ℚ
  vddq : ℚ
  idd0 : ℚ
  idd2n : ℚ
  idd3n : ℚ
  idd4r : ℚ
  idd4w : ℚ
  idd5b : ℚ
  idd6n : ℚ
  idd2p : ℚ
  idd3p : ℚ
  ipp0 : ℚ
  ipp2n : ℚ
  ipp3n : ℚ
  ipp4r : ℚ
  ipp4w : ℚ
  ipp5b : ℚ
  ipp6n : ℚ
  ipp2p : ℚ
  ipp3p : ℚ
deriving DecidableEq

/-- Dataclass `MemTimingSpec` of `src/src/parser.py`: clock period `tCK` in seconds, the
remaining parameters in clock cycles. -/
structure MemTimingSpec where
  tCK : ℚ
  RAS : ℤ
  RCD : ℤ
  RP : ℤ
  RFC1 : ℤ
  RFC2 : ℤ
  RFCsb : ℤ
  REFI : ℤ
deriving DecidableEq

/-- Dataclass `MemSpec` of `src/src/parser.py`. -/
structure MemSpec where
  memoryId : String
  memoryType : String
  memarchitecturespec : MemArchitectureSpec
  mempowerspec : MemPowerSpec
  memtimingspec : MemTimingSpec
deriving DecidableEq

/-- Dataclass `Workload` of `src/src/parser.py` (percentage-valued activity fractions plus
two absolute nanosecond figures). -/
structure Workload where
  BNK_PRE_percent : ℚ
  CKE_LO_PRE_percent : ℚ
  CKE_LO_ACT_percent : ℚ
  PageHit_percent : ℚ
  RDsch_percent : ℚ
  RD_Data_Low_percent : ℚ
  WRsch_percent : ℚ
  WR_Data_Low_percent : ℚ
  termRDsch_percent : ℚ
  termWRsch_percent : ℚ
  System_tRC_ns : ℚ
  tRRDsch_ns : ℚ
deriving DecidableEq

/-! Core power model: `DDR5CorePowerModel.compute` of `src/core/src/core_model.py`.
Each local variable of the source method is embedded as a definition of the same name
(parameterised by the memspec and workload it reads). -/

namespace DDR5CorePowerModel

/-- Source line `tRAS = t.RAS * tCK` (row-active time in seconds). -/
def tRAS (m : MemSpec) : ℚ := (m.memtimingspec.RAS : ℚ) * m.memtimingspec.tCK

/-- Source line `tRP = t.RP * tCK` (row-precharge time in seconds). -/
def tRP (m : MemSpec) : ℚ := (m.memtimingspec.RP : ℚ) * m.memtimingspec.tCK

/-- Source line `tRFC1_s = t.RFC1 * tCK` (refresh cycle time in seconds). -/
def tRFC1_s (m : MemSpec) : ℚ := (m.memtimingspec.RFC1 : ℚ) * m.memtimingspec.tCK

/-- Source line `tREFI_s = t.REFI * tCK` (refresh interval in seconds). -/
def tREFI_s (m : MemSpec) : ℚ := (m.memtimingspec.REFI : ℚ) * m.memtimingspec.tCK

/-- Source: `P_PRE_STBY_core = vdd * ((1 - CKE_LO_PRE_frac) * idd2n + CKE_LO_PRE_frac * idd2p)`
with `CKE_LO_PRE_frac = CKE_LO_PRE_percent / 100`. -/
def P_PRE_STBY_core (m : MemSpec) (w : Workload) : ℚ :=
  m.mempowerspec.vdd *
    ((1 - w.CKE_LO_PRE_percent / 100) * m.mempowerspec.idd2n +
      (w.CKE_LO_PRE_percent / 100) * m.mempowerspec.idd2p)

/-- Source: `P_ACT_STBY_core = vdd * ((1 - CKE_LO_ACT_frac) * idd3n + CKE_LO_ACT_frac * idd3p)`. -/
def P_ACT_STBY_core (m : MemSpec) (w : Workload) : ℚ :=
  m.mempowerspec.vdd *
    ((1 - w.CKE_LO_ACT_percent / 100) * m.mempowerspec.idd3n +
      (w.CKE_LO_ACT_percent / 100) * m.mempowerspec.idd3p)

/-- Source: `P_background_vdd = BNK_PRE_frac * P_PRE_STBY_core + (1 - BNK_PRE_frac) * P_ACT_STBY_core`. -/
def P_background_vdd (m : MemSpec) (w : Workload) : ℚ :=
  (w.BNK_PRE_percent / 100) * P_PRE_STBY_core m w +
    (1 - w.BNK_PRE_percent / 100) * P_ACT_STBY_core m w

/-- Source: `duty_ref = tRFC1_s / tREFI_s`.  Only meaningful when `tREFI_s ≠ 0`; the Python
division raises `ZeroDivisionError` otherwise, which `compute` below reflects. -/
def duty_ref (m : MemSpec) : ℚ := tRFC1_s m / tREFI_s m

/-- Source: `P_REF_vdd = vdd * (idd5b - idd3n) * duty_ref`. -/
def P_REF_vdd (m : MemSpec) : ℚ :=
  m.mempowerspec.vdd * (m.mempowerspec.idd5b - m.mempowerspec.idd3n) * duty_ref m

/-- Source: `P_REF_vpp = vpp * (ipp5b - ipp3n) * duty_ref`. -/
def P_REF_vpp (m : MemSpec) : ℚ :=
  m.mempowerspec.vpp * (m.mempowerspec.ipp5b - m.mempowerspec.ipp3n) * duty_ref m

/-- Source: `P_REF_core = P_REF_vdd + P_REF_vpp`. -/
def P_REF_core (m : MemSpec) : ℚ := P_REF_vdd m + P_REF_vpp m

/-- Source: `P_RD_core = vdd * (idd4r - idd3n) * duty_rd` with `duty_rd = RDsch_percent / 100`. -/
def P_RD_core (m : MemSpec) (w : Workload) : ℚ :=
  m.mempowerspec.vdd * (m.mempowerspec.idd4r - m.mempowerspec.idd3n) * (w.RDsch_percent / 100)

/-- Source: `P_WR_core = vdd * (idd4w - idd3n) * duty_wr` with `duty_wr = WRsch_percent / 100`. -/
def P_WR_core (m : MemSpec) (w : Workload) : ℚ :=
  m.mempowerspec.vdd * (m.mempowerspec.idd4w - m.mempowerspec.idd3n) * (w.WRsch_percent / 100)

/-- Source: `tRRDsch_s = workload.tRRDsch_ns * 1e-9`. -/
def tRRDsch_s (w : Workload) : ℚ := w.tRRDsch_ns * (1 / 1000000000)

/-- Source: `duty_act_pre = min(1.0, (tRAS + tRP) / tRRDsch_s) if tRRDsch_s > 0 else 0.0`. -/
def duty_act_pre (m : MemSpec) (w : Workload) : ℚ :=
  if 0 < tRRDsch_s w then min 1 ((tRAS m + tRP m) / tRRDsch_s w) else 0

/-- Source: `duty_act_vpp = min(1.0, tRAS / tRRDsch_s) if tRRDsch_s > 0 else 0.0`. -/
def duty_act_vpp (m : MemSpec) (w : Workload) : ℚ :=
  if 0 < tRRDsch_s w then min 1 (tRAS m / tRRDsch_s w) else 0

/-- Source: `P_ACT_PRE_vdd = vdd * (idd0 - idd2n) * duty_act_pre`. -/
def P_ACT_PRE_vdd (m : MemSpec) (w : Workload) : ℚ :=
  m.mempowerspec.vdd * (m.mempowerspec.idd0 - m.mempowerspec.idd2n) * duty_act_pre m w

/-- Source: `P_ACT_vpp = vpp * (ipp0 - ipp2n) * duty_act_vpp`. -/
def P_ACT_vpp (m : MemSpec) (w : Workload) : ℚ :=
  m.mempowerspec.vpp * (m.mempowerspec.ipp0 - m.mempowerspec.ipp2n) * duty_act_vpp m w

/-- Source: `P_ACT_PRE_core = P_ACT_PRE_vdd + P_ACT_vpp`. -/
def P_ACT_PRE_core (m : MemSpec) (w : Workload) : ℚ := P_ACT_PRE_vdd m w + P_ACT_vpp m w

/-- Source: `P_VDD_core = P_background_vdd + P_RD_core + P_WR_core + P_REF_vdd + P_ACT_PRE_vdd`. -/
def P_VDD_core (m : MemSpec) (w : Workload) : ℚ :=
  P_background_vdd m w + P_RD_core m w + P_WR_core m w + P_REF_vdd m + P_ACT_PRE_vdd m w

/-- Source: `P_VPP_core = P_REF_vpp + P_ACT_vpp`. -/
def P_VPP_core (m : MemSpec) (w : Workload) : ℚ := P_REF_vpp m + P_ACT_vpp m w

/-- Source: `P_total_core = P_VDD_core + P_VPP_core`. -/
def P_total_core (m : MemSpec) (w : Workload) : ℚ := P_VDD_core m w + P_VPP_core m w

end DDR5CorePowerModel

/-- The nine-key dictionary returned by `DDR5CorePowerModel.compute`
(`src/core/src/core_model.py`, lines 86-96), as a closed record. -/
structure CoreBreakdown where
  P_PRE_STBY_core : ℚ
  P_ACT_STBY_core : ℚ
  P_ACT_PRE_core : ℚ
  P_RD_core : ℚ
  P_WR_core : ℚ
  P_REF_core : ℚ
  P_VDD_core : ℚ
  P_VPP_core : ℚ
  P_total_core : ℚ
deriving DecidableEq

/-- Embedding of `DDR5CorePowerModel.compute` (`src/core/src/core_model.py`, lines 11-96).
The only fallible step is the float division `duty_ref = tRFC1_s / tREFI_s`, which raises
`ZeroDivisionError` when `tREFI_s == 0.0`; everything before it is pure arithmetic with no
observable effect, so the embedding tests the denominator up front. -/
def coreCompute (m : MemSpec) (w : Workload) : Except PyErr CoreBreakdown :=
  if DDR5CorePowerModel.tREFI_s m = 0 then
    .error .zeroDivisionError
  else
    .ok
      { P_PRE_STBY_core := DDR5CorePowerModel.P_PRE_STBY_core m w
        P_ACT_STBY_core := DDR5CorePowerModel.P_ACT_STBY_core m w
        P_ACT_PRE_core := DDR5CorePowerModel.P_ACT_PRE_core m w
        P_RD_core := DDR5CorePowerModel.P_RD_core m w
        P_WR_core := DDR5CorePowerModel.P_WR_core m w
        P_REF_core := DDR5CorePowerModel.P_REF_core m
        P_VDD_core := DDR5CorePowerModel.P_VDD_core m w
        P_VPP_core := DDR5CorePowerModel.P_VPP_core m w
        P_total_core := DDR5CorePowerModel.P_total_core m w }

/-! Interface power model of `src/core/src/interface_model.py`
(`DDR5InterfacePowerModel` and its module-level helper functions). -/

/-- Helper `calc_power_drop_across_term` (`src/core/src/interface_model.py`, lines 66-77):
power dissipated at the termination resistor, `(V/(Rs+Rt))² · Rt`, guarded to return `0.0`
when `r_source + r_term == 0`. -/
def calc_power_drop_across_term (voltage r_source r_term : ℚ) : ℚ :=
  if r_source + r_term = 0 then 0
  else (voltage / (r_source + r_term)) ^ 2 * r_term

/-- Helper `calc_power_drop_across_driver` (`src/core/src/interface_model.py`, lines 79-90):
power dissipated at the output driver, `(V/(Rs+Rt))² · Rs`, with the same zero guard. -/
def calc_power_drop_across_driver (voltage r_source r_term : ℚ) : ℚ :=
  if r_source + r_term = 0 then 0
  else (voltage / (r_source + r_term)) ^ 2 * r_source

/-- Dataclass `InterfacePowerInputs` of `src/core/src/interface_model.py`, with the source's
default values (numeric literals carried over exactly as rationals). -/
structure InterfacePowerInputs where
  vdd : ℚ := 11 / 10
  vddq : ℚ := 11 / 10
  num_subchannels : ℤ := 2
  device_width_bits : ℤ := 8
  devices_per_rank : ℤ := 8
  num_ranks : ℤ := 1
  num_cs : Option ℤ := none
  r_on_host : ℚ := 34
  r_tt_host : ℚ := 40
  r_on_dram : ℚ := 34
  r_tt_dram_wr : ℚ := 48
  r_tt_ca : ℚ := 80
  r_tt_ck : ℚ := 40
  rd_duty : ℚ := 0
  wr_duty : ℚ := 0
  ca_util : ℚ := 15 / 100
  cs_util : ℚ := 5 / 100
  ck_util : ℚ := 1
  prob_data_zero : ℚ := 1 / 2
  prob_cmd_zero : ℚ := 1 / 2
  prob_clock_toggle : ℚ := 1 / 2
deriving DecidableEq

/-- The eight-key dictionary returned by
`DDR5InterfacePowerModel.calculate_termination_power`. -/
structure IfBreakdown where
  P_DQ_WRITE : ℚ
  P_DQ_READ : ℚ
  P_CA : ℚ
  P_CK : ℚ
  P_WCK : ℚ
  P_DQS : ℚ
  P_CS : ℚ
  P_total_interface : ℚ
deriving DecidableEq

namespace DDR5InterfacePowerModel

/-- Pin-count local `num_dq = 32` of `calculate_termination_power`
(`src/core/src/interface_model.py`, line 168): the data pin count is the fixed subchannel
width, not read from the memspec. -/
def num_dq : ℕ := 32

/-- Pin-count local `num_dqs = (num_dq // 8) * 2` (line 173). -/
def num_dqs : ℕ := num_dq / 8 * 2

/-- Pin-count local `num_ca = 14` (line 177). -/
def num_ca : ℕ := 14

/-- Pin-count local `num_cs`: `inputs.num_ranks` when `inputs.num_cs is None`, else
`inputs.num_cs` (lines 181-184). -/
def num_cs (inputs : InterfacePowerInputs) : ℤ :=
  match inputs.num_cs with
  | none => inputs.num_ranks
  | some v => v

/-- Pin-count local `num_ck = 2` (line 187). -/
def num_ck : ℕ := 2

/-- Pin-count local `num_wck = (num_dq // 8) * 2` (line 192). -/
def num_wck : ℕ := num_dq / 8 * 2

/-- Method `calculate_termination_power` (`src/core/src/interface_model.py`, lines 158-307):
per-class power = per-pin power × duty × zero-probability × pin count × subchannel count,
aggregated into `P_total_interface`. -/
def calculate_termination_power (inputs : InterfacePowerInputs) : IfBreakdown :=
  let p_pin_dq_wr := calc_power_drop_across_term inputs.vddq inputs.r_on_host inputs.r_tt_dram_wr
  let total_dq_write :=
    p_pin_dq_wr * inputs.wr_duty * inputs.prob_data_zero * (num_dq : ℚ) * (inputs.num_subchannels : ℚ)
  let p_pin_dq_rd := calc_power_drop_across_driver inputs.vddq inputs.r_on_dram inputs.r_tt_host
  let total_dq_read :=
    p_pin_dq_rd * inputs.rd_duty * inputs.prob_data_zero * (num_dq : ℚ) * (inputs.num_subchannels : ℚ)
  let p_pin_ca := calc_power_drop_across_term inputs.vddq inputs.r_on_host inputs.r_tt_ca
  let total_ca :=
    p_pin_ca * inputs.ca_util * inputs.prob_cmd_zero * (num_ca : ℚ) * (inputs.num_subchannels : ℚ)
  let p_pin_ck := calc_power_drop_across_term inputs.vddq inputs.r_on_host inputs.r_tt_ck
  let total_ck :=
    p_pin_ck * inputs.ck_util * inputs.prob_clock_toggle * (num_ck : ℚ) * (inputs.num_subchannels : ℚ)
  let p_pin_wck := calc_power_drop_across_term inputs.vddq inputs.r_on_host inputs.r_tt_ck
  let total_wck :=
    p_pin_wck * inputs.wr_duty * inputs.prob_clock_toggle * (num_wck : ℚ) * (inputs.num_subchannels : ℚ)
  let p_pin_dqs_wr := calc_power_drop_across_term inputs.vddq inputs.r_on_host inputs.r_tt_dram_wr
  let total_dqs_wr :=
    p_pin_dqs_wr * inputs.wr_duty * inputs.prob_clock_toggle * (num_dqs : ℚ) * (inputs.num_subchannels : ℚ)
  let p_pin_dqs_rd := calc_power_drop_across_driver inputs.vddq inputs.r_on_dram inputs.r_tt_host
  let total_dqs_rd :=
    p_pin_dqs_rd * inputs.rd_duty * inputs.prob_clock_toggle * (num_dqs : ℚ) * (inputs.num_subchannels : ℚ)
  let total_dqs := total_dqs_wr + total_dqs_rd
  let p_pin_cs := calc_power_drop_across_term inputs.vddq inputs.r_on_host inputs.r_tt_ca
  let total_cs :=
    p_pin_cs * inputs.cs_util * inputs.prob_cmd_zero * (num_cs inputs : ℚ) * (inputs.num_subchannels : ℚ)
  let total_power :=
    total_dq_write + total_dq_read + total_ca + total_ck + total_wck + total_dqs + total_cs
  { P_DQ_WRITE := total_dq_write
    P_DQ_READ := total_dq_read
    P_CA := total_ca
    P_CK := total_ck
    P_WCK := total_wck
    P_DQS := total_dqs
    P_CS := total_cs
    P_total_interface := total_power }

/-- Method `DDR5InterfacePowerModel.compute` (`src/core/src/interface_model.py`,
lines 370-382): builds an `InterfacePowerInputs` from the memspec's `vddq` and the
workload's read/write scheduling shares (all other fields defaulted, `ca_util=0.15`,
`cs_util=0.22`) and returns the termination breakdown.  The source also evaluates
`compute_dynamic` on the same inputs but discards its result, so it is not embedded. -/
def compute (m : MemSpec) (w : Workload) : IfBreakdown :=
  calculate_termination_power
    { vddq := m.mempowerspec.vddq
      rd_duty := w.RDsch_percent / 100
      wr_duty := w.WRsch_percent / 100
      ca_util := 15 / 100
      cs_util := 22 / 100 }

end DDR5InterfacePowerModel

/-! Device composer `DDR5` of `src/src/ddr5.py`.  A device binds one memspec/workload pair
to the (stateless) core and interface models; the claims concern devices with both models
bound, so the `None`-model `ValueError` branches of `compute_core` / `compute_interface`
are not exercised here. -/

/-- A `DDR5` device instance with both models bound (`src/src/ddr5.py`, `__init__`). -/
structure DDR5 where
  memspec : MemSpec
  workload : Workload
deriving DecidableEq

/-- Method `DDR5.compute_core` (`src/src/ddr5.py`, lines 31-35): delegates to
`DDR5CorePowerModel.compute`. -/
def DDR5.computeCore (d : DDR5) : Except PyErr CoreBreakdown :=
  coreCompute d.memspec d.workload

/-- Method `DDR5.compute_interface` (`src/src/ddr5.py`, lines 37-41): delegates to
`DDR5InterfacePowerModel.compute`, which is total. -/
def DDR5.computeInterface (d : DDR5) : IfBreakdown :=
  DDR5InterfacePowerModel.compute d.memspec d.workload

/-- The merged dictionary returned by `DDR5.compute_all` (`src/src/ddr5.py`, lines 43-61):
the `core.*`-prefixed keys are the core breakdown, the `if.*`-prefixed keys the interface
breakdown, plus the three un-namespaced convenience totals. -/
structure MergedBreakdown where
  core : CoreBreakdown
  iface : IfBreakdown
  P_total_core : ℚ
  P_total_interface : ℚ
  P_total : ℚ
deriving DecidableEq

/-- Method `DDR5.compute_all` (`src/src/ddr5.py`, lines 43-61): computes core then
interface, merges under namespaced keys, and sets
`P_total = core.get("P_total_core", 0.0) + interface.get("P_total_interface", 0.0)`
(both keys are always present in the respective breakdowns, so `get` returns the stored
totals). -/
def DDR5.computeAll (d : DDR5) : Except PyErr MergedBreakdown := do
  let core ← d.computeCore
  let iface := d.computeInterface
  let core_total := core.P_total_core
  let if_total := iface.P_total_interface
  pure
    { core := core
      iface := iface
      P_total_core := core_total
      P_total_interface := if_total
      P_total := core_total + if_total }

/-! Channel-level interface model `InterfacePowerModel` of `src/src/interface_model.py`,
used by the DIMM aggregator.  Its dataclass is a distinct `InterfacePowerInputs` class in
the source; it is embedded here under the `ChannelIf` namespace to keep both. -/

namespace ChannelIf

/-- Dataclass `InterfacePowerInputs` of `src/src/interface_model.py` (channel-level), with
the source's defaults.  `vdd`/`vddq` have no defaults in the source and are mandatory. -/
structure Inputs where
  vdd : ℚ
  vddq : ℚ
  num_subchannels : ℤ := 2
  subchannel_width_bits : ℤ := 32
  device_width_bits : ℤ := 8
  num_ranks : ℤ := 1
  num_ca : Option ℤ := none
  num_cs : Option ℤ := none
  rd_duty : ℚ := 0
  wr_duty : ℚ := 0
  ca_util : ℚ := 15 / 100
  cs_util : ℚ := 15 / 100
  toggle_data : ℚ := 1 / 2
  toggle_ca : ℚ := 1 / 2
  toggle_clk : ℚ := 1 / 2
  toggle_dqs : ℚ := 1 / 2
  r_ca : ℚ := 80
  r_cs : ℚ := 80
  r_ck : ℚ := 50
  r_dq : ℚ := 80
  r_dqs : ℚ := 80
  r_wck : ℚ := 50
  r_rdqs : ℚ := 80
deriving DecidableEq

/-- Helper `solve_power(v, R) = v*v / R` of `src/src/interface_model.py` (line 4); Python
float division raises `ZeroDivisionError` when `R == 0`. -/
def solve_power (v R : ℚ) : Except PyErr ℚ :=
  if R = 0 then .error .zeroDivisionError else .ok (v * v / R)

/-- The dictionary returned by `InterfacePowerModel.compute_termination`
(`src/src/interface_model.py`, lines 128-144). -/
structure Breakdown where
  devices_per_rank : ℚ
  num_other_devices : ℚ
  dq_bits_per_device : ℚ
  dqs_per_device : ℚ
  P_CA : ℚ
  P_CS : ℚ
  P_CK : ℚ
  P_DQ_READ_target : ℚ
  P_DQ_READ_others : ℚ
  P_DQ_WRITE_all : ℚ
  P_DQS : ℚ
  P_total_interface : ℚ
deriving DecidableEq

/-- Python `a // b` on ints (floor division); raises `ZeroDivisionError` for `b == 0`. -/
def floorDiv (a b : ℤ) : Except PyErr ℤ :=
  if b = 0 then .error .zeroDivisionError else .ok (Int.fdiv a b)

/-- Python multiplication `x * y` where `x` is `Optional[int]`: `None * float` raises
`TypeError` (the source multiplies `input.num_ca` and `input.num_cs` without a `None`
check). -/
def optMul (x : Option ℤ) (y : ℚ) : Except PyErr ℚ :=
  match x with
  | none => .error .typeError
  | some n => .ok ((n : ℚ) * y)

/-- Method `InterfacePowerModel.compute_termination` (`src/src/interface_model.py`,
lines 95-144). -/
def compute_termination (input : Inputs) : Except PyErr Breakdown := do
  let rank_bus_width_bits := input.num_subchannels * input.subchannel_width_bits
  let devices_per_rank ← floorDiv rank_bus_width_bits input.device_width_bits
  let num_other_devices := devices_per_rank - 1
  let dq_bits_per_device := input.device_width_bits
  let dqs_per_device ← do
    let q ← floorDiv input.device_width_bits 8
    pure (q * 2)
  let P_CA ← do
    let s ← solve_power input.vdd input.r_ca
    optMul input.num_ca (s * input.ca_util)
  let P_CS ← do
    let s ← solve_power input.vdd input.r_cs
    optMul input.num_cs (s * input.cs_util)
  let P_CK ← do
    let s ← solve_power input.vdd input.r_ck
    pure (2 * s)
  let P_DQ_READ_target ← do
    let s ← solve_power input.vddq input.r_dq
    pure ((dq_bits_per_device : ℚ) * s * input.rd_duty)
  let P_DQ_READ_others ← do
    let s ← solve_power input.vddq input.r_dq
    pure ((dq_bits_per_device : ℚ) * (num_other_devices : ℚ) * s * input.rd_duty)
  let P_DQ_WRITE ← do
    let s ← solve_power input.vddq input.r_dq
    pure ((dq_bits_per_device : ℚ) * (devices_per_rank : ℚ) * s * input.wr_duty)
  let P_DQS ← do
    let s ← solve_power input.vddq input.r_dqs
    pure ((dqs_per_device : ℚ) * s * (input.rd_duty + input.wr_duty))
  let P_total :=
    P_CA + P_CS + P_CK + P_DQ_READ_target + P_DQ_READ_others + P_DQ_WRITE + P_DQS
  pure
    { devices_per_rank := (devices_per_rank : ℚ)
      num_other_devices := (num_other_devices : ℚ)
      dq_bits_per_device := (dq_bits_per_device : ℚ)
      dqs_per_device := (dqs_per_device : ℚ)
      P_CA := P_CA
      P_CS := P_CS
      P_CK := P_CK
      P_DQ_READ_target := P_DQ_READ_target
      P_DQ_READ_others := P_DQ_READ_others
      P_DQ_WRITE_all := P_DQ_WRITE
      P_DQS := P_DQS
      P_total_interface := P_total }

/-- Method `InterfacePowerModel.compute_all` (`src/src/interface_model.py`, lines 167-171):
`compute_dynamic` returns `None` and its result is discarded, so `compute_all` is
`compute_termination`. -/
def compute_all (input : Inputs) : Except PyErr Breakdown :=
  compute_termination input

end ChannelIf

/-! DIMM aggregator of `src/src/dimm.py`.  `compute_all` merges per-device core breakdowns
with `dict(Counter(a) + Counter(b))`; `collections.Counter.__add__` adds values key-wise
(missing keys counting as 0) and keeps only keys whose summed value is strictly positive.
Dictionaries are embedded as lookup functions `String → Option ℚ`. -/

/-- Lookup function of the empty dict (also the value of `Counter(None)`, since
`Counter(iterable=None)` ignores a `None` argument). -/
def emptyDict : String → Option ℚ := fun _ => none

/-- Lookup function of `dict(Counter(a) + Counter(b))`: key-wise sum, keeping only
strictly positive entries. -/
def counterAdd (a b : String → Option ℚ) : String → Option ℚ := fun k =>
  let s := (a k).getD 0 + (b k).getD 0
  if 0 < s then some s else none

/-- Lookup view of the nine-key dict returned by `DDR5CorePowerModel.compute`. -/
def coreDict (b : CoreBreakdown) : String → Option ℚ := fun k =>
  if k = "P_PRE_STBY_core" then some b.P_PRE_STBY_core
  else if k = "P_ACT_STBY_core" then some b.P_ACT_STBY_core
  else if k = "P_ACT_PRE_core" then some b.P_ACT_PRE_core
  else if k = "P_RD_core" then some b.P_RD_core
  else if k = "P_WR_core" then some b.P_WR_core
  else if k = "P_REF_core" then some b.P_REF_core
  else if k = "P_VDD_core" then some b.P_VDD_core
  else if k = "P_VPP_core" then some b.P_VPP_core
  else if k = "P_total_core" then some b.P_total_core
  else none

/-- Lookup view of the twelve-key dict returned by
`InterfacePowerModel.compute_termination` (`src/src/interface_model.py`). -/
def channelIfDict (b : ChannelIf.Breakdown) : String → Option ℚ := fun k =>
  if k = "devices_per_rank" then some b.devices_per_rank
  else if k = "num_other_devices" then some b.num_other_devices
  else if k = "dq_bits_per_device" then some b.dq_bits_per_device
  else if k = "dqs_per_device" then some b.dqs_per_device
  else if k = "P_CA" then some b.P_CA
  else if k = "P_CS" then some b.P_CS
  else if k = "P_CK" then some b.P_CK
  else if k = "P_DQ_READ_target" then some b.P_DQ_READ_target
  else if k = "P_DQ_READ_others" then some b.P_DQ_READ_others
  else if k = "P_DQ_WRITE_all" then some b.P_DQ_WRITE_all
  else if k = "P_DQS" then some b.P_DQS
  else if k = "P_total_interface" then some b.P_total_interface
  else none

/-- The `DIMM` aggregator state read by `compute_all` (`src/src/dimm.py`, `__init__`):
the list of `DDR5` devices (`None` in Python is `Option.none` here) and the channel-level
interface inputs; the bound channel interface model is the stateless
`InterfacePowerModel`. -/
structure DIMM where
  dram_list : Option (List DDR5)
  interface_input : ChannelIf.Inputs

/-- The `for dram in self.dram_list` accumulation loop of `DIMM.compute_all`
(`src/src/dimm.py`, lines 70-72): starting from `self.corepower = None`, each device's
core breakdown is merged in with `dict(Counter(self.corepower) + Counter(dram.compute_core()))`. -/
def accumulateCore : List DDR5 → Option (String → Option ℚ) →
    Except PyErr (Option (String → Option ℚ))
  | [], acc => .ok acc
  | d :: rest, acc => do
    let cb ← d.computeCore
    accumulateCore rest (some (counterAdd (acc.getD emptyDict) (coreDict cb)))

/-- Method `DIMM.compute_all` (`src/src/dimm.py`, lines 68-80).  After the per-device core
accumulation, one channel-level interface computation is performed, the two dicts are
Counter-merged, and `total["P_total"] = self.corepower["P_total_core"] +
self.interfacepower["P_total_interface"]`.  `self.corepower["P_total_core"]` raises
`TypeError` when `corepower` is still `None` (empty device list) and `KeyError` when the
Counter merge filtered the key out (non-positive total). -/
def DIMM.computeAll (dimm : DIMM) : Except PyErr (String → Option ℚ) := do
  match dimm.dram_list with
  | none => .error (.valueError "No DRAM devices")
  | some drams => do
    let corepower ← accumulateCore drams none
    let interfacepower ← ChannelIf.compute_all dimm.interface_input
    let total := counterAdd (corepower.getD emptyDict) (channelIfDict interfacepower)
    let core_total ←
      match corepower with
      | none => .error .typeError
      | some cp =>
        match cp "P_total_core" with
        | none => .error (.keyError "P_total_core")
        | some v => .ok v
    let if_total := interfacepower.P_total_interface
    pure (fun k => if k = "P_total" then some (core_total + if_total) else total k)

/-! Specification ingestion: `load_memspec` of `src/src/parser.py` (lines 92-154).
The JSON document already parsed by `json.load` is embedded as a `JValue`; Python's
`float(x)` / `int(x)` coercions are embedded with their builtin semantics: numbers are
passed through (`int` truncating toward zero), booleans coerce to 0/1, strings are parsed
(an unparseable string raises `ValueError`), anything else raises `TypeError`.  The string
grammar modelled for `float()` is optional spaces, optional sign, and a decimal literal
with optional fractional part (exponents and specials like `inf` are not needed by any
claim and are omitted); for `int()` it is optional spaces, optional sign, digits. -/

/-- JSON values as produced by `json.load`. -/
inductive JValue where
  | num : ℚ → JValue
  | str : String → JValue
  | bool : Bool → JValue
  | null : JValue
  | arr : List JValue → JValue
  | obj : List (String × JValue) → JValue

/-- Numeric value of a digit list (most significant first). -/
def natOfDigits (l : List Char) : ℕ :=
  l.foldl (fun a c => a * 10 + (c.toNat - 48)) 0

/-- Unsigned decimal literal: `digits`, `digits.`, `digits.digits` or `.digits`. -/
def parseUnsignedQ (l : List Char) : Option ℚ :=
  let ip := l.takeWhile Char.isDigit
  let rest := l.dropWhile Char.isDigit
  match rest with
  | [] => if ip.isEmpty then none else some (natOfDigits ip : ℚ)
  | '.' :: frac =>
    if frac.all Char.isDigit && (!ip.isEmpty || !frac.isEmpty) then
      some ((natOfDigits ip : ℚ) + (natOfDigits frac : ℚ) / (10 : ℚ) ^ frac.length)
    else none
  | _ => none

/-- Strips the leading/trailing spaces Python's numeric coercions accept. -/
def stripSpaces (l : List Char) : List Char :=
  ((l.dropWhile (· = ' ')).reverse.dropWhile (· = ' ')).reverse

/-- String argument of Python `float()`: optional sign then an unsigned decimal literal. -/
def parseFloatQ (s : String) : Option ℚ :=
  match stripSpaces s.toList with
  | '-' :: rest => (parseUnsignedQ rest).map (fun q => -q)
  | '+' :: rest => parseUnsignedQ rest
  | l => parseUnsignedQ l

/-- String argument of Python `int()`: optional sign then digits only. -/
def parseIntZ (s : String) : Option ℤ :=
  match stripSpaces s.toList with
  | '-' :: rest =>
    if rest.all Char.isDigit && !rest.isEmpty then some (-(natOfDigits rest : ℤ)) else none
  | '+' :: rest =>
    if rest.all Char.isDigit && !rest.isEmpty then some (natOfDigits rest : ℤ) else none
  | l => if l.all Char.isDigit && !l.isEmpty then some (natOfDigits l : ℤ) else none

/-- Python `int()` truncation of a float toward zero. -/
def pyTrunc (q : ℚ) : ℤ := if 0 ≤ q then ⌊q⌋ else ⌈q⌉

/-- Python `float(x)` on a JSON value. -/
def pyFloat : JValue → Except PyErr ℚ
  | .num q => .ok q
  | .bool b => .ok (if b then 1 else 0)
  | .str s =>
    match parseFloatQ s with
    | some q => .ok q
    | none => .error (.valueError s)
  | _ => .error .typeError

/-- Python `int(x)` on a JSON value. -/
def pyInt : JValue → Except PyErr ℤ
  | .num q => .ok (pyTrunc q)
  | .bool b => .ok (if b then 1 else 0)
  | .str s =>
    match parseIntZ s with
    | some n => .ok n
    | none => .error (.valueError s)
  | _ => .error .typeError

/-- Python subscript `v[k]` for a string key: `KeyError` carrying the key when it is
absent from a dict, `TypeError` when `v` is not a dict. -/
def objGet (v : JValue) (k : String) : Except PyErr JValue :=
  match v with
  | .obj fields =>
    match fields.lookup k with
    | some x => .ok x
    | none => .error (.keyError k)
  | _ => .error .typeError

/-- Python `v.get(k, default)` followed by `str(...)`: returns the stored string, the
default for a missing key.  (The printed representation of a stored non-string value is
irrelevant to every claim and abstracted to `""`.) -/
def jGetStr (v : JValue) (k : String) (dflt : String) : String :=
  match v with
  | .obj fields =>
    match fields.lookup k with
    | some (.str s) => s
    | some _ => ""
    | none => dflt
  | _ => dflt

/-- Function `load_memspec` (`src/src/parser.py`, lines 92-154), applied to the decoded
JSON document.  Lookups and coercions are sequenced exactly as the source evaluates them:
the four dict subscripts first, then the architecture `int(...)` fields, the power
`float(...)` fields and the timing fields, each in the source's keyword order. -/
def load_memspec (doc : JValue) : Except PyErr MemSpec := do
  let raw ← objGet doc "memspec"
  let arch_raw ← objGet raw "memarchitecturespec"
  let p_raw ← objGet raw "mempowerspec"
  let t_raw ← objGet raw "memtimingspec"
  let width ← pyInt (← objGet arch_raw "width")
  let nbrOfBanks ← pyInt (← objGet arch_raw "nbrOfBanks")
  let nbrOfBankGroups ← pyInt (← objGet arch_raw "nbrOfBankGroups")
  let nbrOfRanks ← pyInt (← objGet arch_raw "nbrOfRanks")
  let nbrOfColumns ← pyInt (← objGet arch_raw "nbrOfColumns")
  let nbrOfRows ← pyInt (← objGet arch_raw "nbrOfRows")
  let burstLength ← pyInt (← objGet arch_raw "burstLength")
  let dataRate ← pyInt (← objGet arch_raw "dataRate")
  let vdd ← pyFloat (← objGet p_raw "vdd")
  let vpp ← pyFloat (← objGet p_raw "vpp")
  let vddq ← pyFloat (← objGet p_raw "vddq")
  let idd0 ← pyFloat (← objGet p_raw "idd0")
  let idd2n ← pyFloat (← objGet p_raw "idd2n")
  let idd3n ← pyFloat (← objGet p_raw "idd3n")
  let idd4r ← pyFloat (← objGet p_raw "idd4r")
  let idd4w ← pyFloat (← objGet p_raw "idd4w")
  let idd5b ← pyFloat (← objGet p_raw "idd5b")
  let idd6n ← pyFloat (← objGet p_raw "idd6n")
  let idd2p ← pyFloat (← objGet p_raw "idd2p")
  let idd3p ← pyFloat (← objGet p_raw "idd3p")
  let ipp0 ← pyFloat (← objGet p_raw "ipp0")
  let ipp2n ← pyFloat (← objGet p_raw "ipp2n")
  let ipp3n ← pyFloat (← objGet p_raw "ipp3n")
  let ipp4r ← pyFloat (← objGet p_raw "ipp4r")
  let ipp4w ← pyFloat (← objGet p_raw "ipp4w")
  let ipp5b ← pyFloat (← objGet p_raw "ipp5b")
  let ipp6n ← pyFloat (← objGet p_raw "ipp6n")
  let ipp2p ← pyFloat (← objGet p_raw "ipp2p")
  let ipp3p ← pyFloat (← objGet p_raw "ipp3p")
  let tCK ← pyFloat (← objGet t_raw "tCK")
  let tRAS ← pyInt (← objGet t_raw "RAS")
  let tRCD ← pyInt (← objGet t_raw "RCD")
  let tRP ← pyInt (← objGet t_raw "RP")
  let tRFC1 ← pyInt (← objGet t_raw "RFC1")
  let tRFC2 ← pyInt (← objGet t_raw "RFC2")
  let tRFCsb ← pyInt (← objGet t_raw "RFCsb")
  let tREFI ← pyInt (← objGet t_raw "REFI")
  pure
    { memoryId := jGetStr raw "memoryId" ""
      memoryType := jGetStr raw "memoryType" ""
      memarchitecturespec :=
        { width := width
          nbrOfBanks := nbrOfBanks
          nbrOfBankGroups := nbrOfBankGroups
          nbrOfRanks := nbrOfRanks
          nbrOfColumns := nbrOfColumns
          nbrOfRows := nbrOfRows
          burstLength := burstLength
          dataRate := dataRate }
      mempowerspec :=
        { vdd := vdd, vpp := vpp, vddq := vddq
          idd0 := idd0, idd2n := idd2n, idd3n := idd3n, idd4r := idd4r, idd4w := idd4w
          idd5b := idd5b, idd6n := idd6n, idd2p := idd2p, idd3p := idd3p
          ipp0 := ipp0, ipp2n := ipp2n, ipp3n := ipp3n, ipp4r := ipp4r, ipp4w := ipp4w
          ipp5b := ipp5b, ipp6n := ipp6n, ipp2p := ipp2p, ipp3p := ipp3p }
      memtimingspec :=
        { tCK := tCK, RAS := tRAS, RCD := tRCD, RP := tRP
          RFC1 := tRFC1, RFC2 := tRFC2, RFCsb := tRFCsb, REFI := tREFI } }

/-! Concrete instances used to evaluate the model (the sample values follow the
datasheet-style scenario of the repository's workloads: a 1.1 V x8 DDR5-4800 part). -/

/-- Iterated Counter-merge of one fixed core dict with itself: lookup of `n` key-wise
copies, keeping strictly positive entries (the shape `DIMM.computeAll`'s accumulator takes
on `n` identical devices). -/
def natMulDict (n : ℕ) (d : String → Option ℚ) : String → Option ℚ := fun k =>
  let s := (n : ℚ) * (d k).getD 0
  if 0 < s then some s else none

/-- Sample architecture record (x8 device). -/
def sampleArch : MemArchitectureSpec :=
  { width := 8, nbrOfBanks := 32, nbrOfBankGroups := 8, nbrOfRanks := 1
    nbrOfColumns := 1024, nbrOfRows := 65536, burstLength := 16, dataRate := 2 }

/-- Sample power record (currents in mA-scale units as in the repository's spec files). -/
def samplePower : MemPowerSpec :=
  { vdd := 11 / 10, vpp := 18 / 10, vddq := 11 / 10
    idd0 := 158, idd2n := 46, idd3n := 105, idd4r := 210, idd4w := 245
    idd5b := 10500, idd6n := 30, idd2p := 30, idd3p := 40
    ipp0 := 4, ipp2n := 1, ipp3n := 2, ipp4r := 2, ipp4w := 2
    ipp5b := 29, ipp6n := 1, ipp2p := 1, ipp3p := 1 }

/-- Sample timing record: `tCK = 0.416 ns` expressed in seconds. -/
def sampleTiming : MemTimingSpec :=
  { tCK := 416 / 1000000000000, RAS := 28, RCD := 14, RP := 14
    RFC1 := 350, RFC2 := 160, RFCsb := 130, REFI := 7800 }

/-- Sample specification. -/
def sampleSpec : MemSpec :=
  { memoryId := "micron_16gb_ddr5", memoryType := "DDR5"
    memarchitecturespec := sampleArch, mempowerspec := samplePower
    memtimingspec := sampleTiming }

/-- Sample workload: 50 % precharge occupancy and read/write shares, no power-down,
`tRRDsch = 4 ns` (faster than a row cycle, so the activate duty clamps). -/
def sampleWorkload : Workload :=
  { BNK_PRE_percent := 50, CKE_LO_PRE_percent := 0, CKE_LO_ACT_percent := 0
    PageHit_percent := 50, RDsch_percent := 50, RD_Data_Low_percent := 50
    WRsch_percent := 50, WR_Data_Low_percent := 50
    termRDsch_percent := 0, termWRsch_percent := 0
    System_tRC_ns := 50, tRRDsch_ns := 4 }

/-- Same workload with a row-to-row delay slower than a row cycle (no clamping). -/
def slowWorkload : Workload := { sampleWorkload with tRRDsch_ns := 100 }

/-- Same workload with `tRRDsch = 0` (no row activity). -/
def idleRowWorkload : Workload := { sampleWorkload with tRRDsch_ns := 0 }

/-- Degenerate power record with every voltage and current zero (allowed by the §3
invariant, which only requires non-negativity). -/
def zeroPower : MemPowerSpec :=
  { vdd := 0, vpp := 0, vddq := 0
    idd0 := 0, idd2n := 0, idd3n := 0, idd4r := 0, idd4w := 0
    idd5b := 0, idd6n := 0, idd2p := 0, idd3p := 0
    ipp0 := 0, ipp2n := 0, ipp3n := 0, ipp4r := 0, ipp4w := 0
    ipp5b := 0, ipp6n := 0, ipp2p := 0, ipp3p := 0 }

/-- Sample specification with the all-zero power record (timing untouched, so the core
computation still succeeds). -/
def zeroSpec : MemSpec := { sampleSpec with mempowerspec := zeroPower }

/-- The channel-level interface inputs `DIMM.load_specs` constructs
(`src/src/dimm.py`, lines 46-55). -/
def sampleChannelInputs : ChannelIf.Inputs :=
  { vdd := 11 / 10, vddq := 11 / 10, num_ca := some 28, num_cs := some 1
    rd_duty := 15 / 100, wr_duty := 7 / 100, ca_util := 15 / 100, cs_util := 22 / 100 }

/-- A sample device. -/
def sampleDevice : DDR5 := { memspec := sampleSpec, workload := sampleWorkload }

/-- A device over the all-zero power record. -/
def zeroDevice : DDR5 := { memspec := zeroSpec, workload := sampleWorkload }

/-! Concrete ingestion documents for the fault-injection scenarios. -/

/-- Architecture sub-document of the sample specification JSON. -/
def archDocFields : List (String × JValue) :=
  [("width", .num 8), ("nbrOfBanks", .num 32), ("nbrOfBankGroups", .num 8),
   ("nbrOfRanks", .num 1), ("nbrOfColumns", .num 1024), ("nbrOfRows", .num 65536),
   ("burstLength", .num 16), ("dataRate", .num 2)]

/-- Power sub-document of the sample specification JSON. -/
def powerDocFields : List (String × JValue) :=
  [("vdd", .num (11 / 10)), ("vpp", .num (18 / 10)), ("vddq", .num (11 / 10)),
   ("idd0", .num 158), ("idd2n", .num 46), ("idd3n", .num 105), ("idd4r", .num 210),
   ("idd4w", .num 245), ("idd5b", .num 10500), ("idd6n", .num 30), ("idd2p", .num 30),
   ("idd3p", .num 40), ("ipp0", .num 4), ("ipp2n", .num 1), ("ipp3n", .num 2),
   ("ipp4r", .num 2), ("ipp4w", .num 2), ("ipp5b", .num 29), ("ipp6n", .num 1),
   ("ipp2p", .num 1), ("ipp3p", .num 1)]

/-- Timing sub-document with a caller-chosen `tCK` entry. -/
def timingDocFields (tck : JValue) : List (String × JValue) :=
  [("tCK", tck), ("RAS", .num 28), ("RCD", .num 14), ("RP", .num 14),
   ("RFC1", .num 350), ("RFC2", .num 160), ("RFCsb", .num 130), ("REFI", .num 7800)]

/-- Full specification document over the given power and timing sub-documents. -/
def specDoc (pf tf : List (String × JValue)) : JValue :=
  .obj [("memspec", .obj
    [("memoryId", .str "micron_16gb_ddr5"), ("memoryType", .str "DDR5"),
     ("memarchitecturespec", .obj archDocFields),
     ("mempowerspec", .obj pf),
     ("memtimingspec", .obj tf)])]

/-- The sample document with the `vdd` entry removed from the power sub-document. -/
def docMissingVdd : JValue :=
  specDoc (powerDocFields.filter (fun p => p.1 != "vdd"))
    (timingDocFields (.num (416 / 1000000000000)))

/-- The sample document with a caller-chosen `tCK` value. -/
def docWithTck (v : JValue) : JValue := specDoc powerDocFields (timingDocFields v)

/-- The sample specification with the device I/O width changed from x8 to x16 (all other
fields identical). -/
def wideSpec : MemSpec :=
  { sampleSpec with memarchitecturespec := { sampleArch with width := 16 } }

/-- The all-zero core breakdown (what `coreCompute` yields on `zeroSpec`). -/
def zeroBreakdown : CoreBreakdown := ⟨0, 0, 0, 0, 0, 0, 0, 0, 0⟩

/-- The sample specification with the refresh interval set to zero. -/
def noRefreshSpec : MemSpec :=
  { sampleSpec with memtimingspec := { sampleTiming with REFI := 0 } }

/-- The record `coreCompute` packs on success (each field the corresponding source
local). -/
def coreBreakdownOf (m : MemSpec) (w : Workload) : CoreBreakdown :=
  { P_PRE_STBY_core := DDR5CorePowerModel.P_PRE_STBY_core m w
    P_ACT_STBY_core := DDR5CorePowerModel.P_ACT_STBY_core m w
    P_ACT_PRE_core := DDR5CorePowerModel.P_ACT_PRE_core m w
    P_RD_core := DDR5CorePowerModel.P_RD_core m w
    P_WR_core := DDR5CorePowerModel.P_WR_core m w
    P_REF_core := DDR5CorePowerModel.P_REF_core m
    P_VDD_core := DDR5CorePowerModel.P_VDD_core m w
    P_VPP_core := DDR5CorePowerModel.P_VPP_core m w
    P_total_core := DDR5CorePowerModel.P_total_core m w }

/-! Theorems.  Each claim of the specification is settled by one theorem below; shared
helper lemmas come first. -/

/-- Helper: the first Counter-merge of a breakdown into the empty accumulator keeps
exactly its strictly positive entries. -/
theorem counterAdd_emptyDict (d : String → Option ℚ) :
    counterAdd emptyDict d = natMulDict 1 d := by
  funext k
  simp [counterAdd, emptyDict, natMulDict]

/-- Helper: Counter-merging the same breakdown into an accumulator already holding
`n ≥ 1` copies yields `n + 1` copies. -/
theorem counterAdd_natMulDict (n : ℕ) (hn : 1 ≤ n) (d : String → Option ℚ) :
    counterAdd (natMulDict n d) d = natMulDict (n + 1) d := by
  funext k
  simp only [counterAdd, natMulDict]
  rcases le_or_lt ((d k).getD 0) 0 with hv | hv
  · have h₁ : ¬ (0 : ℚ) < (n : ℚ) * (d k).getD 0 :=
      not_lt.mpr (mul_nonpos_of_nonneg_of_nonpos (by positivity) hv)
    have h₂ : ¬ (0 : ℚ) < ((n : ℚ) + 1) * (d k).getD 0 :=
      not_lt.mpr (mul_nonpos_of_nonneg_of_nonpos (by positivity) hv)
    simp only [if_neg h₁, Option.getD_none, zero_add, if_neg (not_lt.mpr hv)]
    rw [if_neg]
    push_cast
    exact h₂
  · have hn' : (0 : ℚ) < (n : ℚ) := by exact_mod_cast hn.trans_lt' (by norm_num)
    have h₁ : (0 : ℚ) < (n : ℚ) * (d k).getD 0 := mul_pos hn' hv
    have h₂ : (0 : ℚ) < ((n : ℚ) + 1) * (d k).getD 0 := mul_pos (by linarith) hv
    simp only [if_pos h₁, Option.getD_some]
    rw [if_pos (by linarith), if_pos (by push_cast; linarith)]
    congr 1
    push_cast
    ring

/-- Helper: the core computation succeeds exactly when the refresh interval in seconds is
non-zero, returning the source's breakdown record. -/
theorem coreCompute_ok (m : MemSpec) (w : Workload)
    (h : DDR5CorePowerModel.tREFI_s m ≠ 0) :
    coreCompute m w = .ok (coreBreakdownOf m w) := by
  simp [coreCompute, coreBreakdownOf, h]

/-- C1: for every Specification and Workload on which the core computation succeeds, the
background (standby) VDD term contributed to `P_VDD_core` equals
`BNK_PRE·[(1−pdPRE)·idd2n + pdPRE·idd2p]·VDD + (1−BNK_PRE)·[(1−pdACT)·idd3n + pdACT·idd3p]·VDD`
with each percentage workload field divided by 100 at point of use, and the two blended
standby pieces are returned under the keys `P_PRE_STBY_core` and `P_ACT_STBY_core`. -/
theorem background_power_formula (m : MemSpec) (w : Workload)
    (h : DDR5CorePowerModel.tREFI_s m ≠ 0) :
    ∃ b, coreCompute m w = .ok b ∧
      b.P_PRE_STBY_core =
        m.mempowerspec.vdd *
          ((1 - w.CKE_LO_PRE_percent / 100) * m.mempowerspec.idd2n +
            (w.CKE_LO_PRE_percent / 100) * m.mempowerspec.idd2p) ∧
      b.P_ACT_STBY_core =
        m.mempowerspec.vdd *
          ((1 - w.CKE_LO_ACT_percent / 100) * m.mempowerspec.idd3n +
            (w.CKE_LO_ACT_percent / 100) * m.mempowerspec.idd3p) ∧
      DDR5CorePowerModel.P_background_vdd m w =
        (w.BNK_PRE_percent / 100) *
            ((1 - w.CKE_LO_PRE_percent / 100) * m.mempowerspec.idd2n +
              (w.CKE_LO_PRE_percent / 100) * m.mempowerspec.idd2p) * m.mempowerspec.vdd +
          (1 - w.BNK_PRE_percent / 100) *
            ((1 - w.CKE_LO_ACT_percent / 100) * m.mempowerspec.idd3n +
              (w.CKE_LO_ACT_percent / 100) * m.mempowerspec.idd3p) * m.mempowerspec.vdd ∧
      b.P_VDD_core =
        DDR5CorePowerModel.P_background_vdd m w + b.P_RD_core + b.P_WR_core +
          DDR5CorePowerModel.P_REF_vdd m + DDR5CorePowerModel.P_ACT_PRE_vdd m w := by
  refine ⟨coreBreakdownOf m w, coreCompute_ok m w h, ?_, ?_, ?_, ?_⟩
  · rfl
  · rfl
  · unfold DDR5CorePowerModel.P_background_vdd DDR5CorePowerModel.P_PRE_STBY_core
      DDR5CorePowerModel.P_ACT_STBY_core
    ring
  · rfl

/-- C1 witness: the background formula instantiated on the sample inputs. -/
theorem background_power_formula_witness :
    DDR5CorePowerModel.tREFI_s sampleSpec ≠ 0 ∧
      (∃ b, coreCompute sampleSpec sampleWorkload = .ok b ∧
        b.P_PRE_STBY_core =
          sampleSpec.mempowerspec.vdd *
            ((1 - sampleWorkload.CKE_LO_PRE_percent / 100) * sampleSpec.mempowerspec.idd2n +
              (sampleWorkload.CKE_LO_PRE_percent / 100) * sampleSpec.mempowerspec.idd2p) ∧
        b.P_ACT_STBY_core =
          sampleSpec.mempowerspec.vdd *
            ((1 - sampleWorkload.CKE_LO_ACT_percent / 100) * sampleSpec.mempowerspec.idd3n +
              (sampleWorkload.CKE_LO_ACT_percent / 100) * sampleSpec.mempowerspec.idd3p) ∧
        DDR5CorePowerModel.P_background_vdd sampleSpec sampleWorkload =
          (sampleWorkload.BNK_PRE_percent / 100) *
              ((1 - sampleWorkload.CKE_LO_PRE_percent / 100) * sampleSpec.mempowerspec.idd2n +
                (sampleWorkload.CKE_LO_PRE_percent / 100) * sampleSpec.mempowerspec.idd2p) *
              sampleSpec.mempowerspec.vdd +
            (1 - sampleWorkload.BNK_PRE_percent / 100) *
              ((1 - sampleWorkload.CKE_LO_ACT_percent / 100) * sampleSpec.mempowerspec.idd3n +
                (sampleWorkload.CKE_LO_ACT_percent / 100) * sampleSpec.mempowerspec.idd3p) *
              sampleSpec.mempowerspec.vdd ∧
        b.P_VDD_core =
          DDR5CorePowerModel.P_background_vdd sampleSpec sampleWorkload + b.P_RD_core +
            b.P_WR_core + DDR5CorePowerModel.P_REF_vdd sampleSpec +
            DDR5CorePowerModel.P_ACT_PRE_vdd sampleSpec sampleWorkload) :=
  have h : DDR5CorePowerModel.tREFI_s sampleSpec ≠ 0 := by
    norm_num [DDR5CorePowerModel.tREFI_s, sampleSpec, sampleTiming]
  ⟨h, background_power_formula sampleSpec sampleWorkload h⟩

/-- C2: totals decompose additively — on every successful core computation
`P_VDD_core + P_VPP_core = P_total_core`, and on every successful merged device
computation `P_total_core + P_total_interface = P_total` (exact rational equalities, hence
within the claimed 1e-9 relative tolerance). -/
theorem totals_decompose_additively :
    (∀ (m : MemSpec) (w : Workload), DDR5CorePowerModel.tREFI_s m ≠ 0 →
      ∃ b, coreCompute m w = .ok b ∧ b.P_VDD_core + b.P_VPP_core = b.P_total_core) ∧
    (∀ d : DDR5, DDR5CorePowerModel.tREFI_s d.memspec ≠ 0 →
      ∃ r, d.computeAll = .ok r ∧ r.P_total_core + r.P_total_interface = r.P_total) := by
  constructor
  · intro m w h
    exact ⟨coreBreakdownOf m w, coreCompute_ok m w h,
      by simp [coreBreakdownOf, DDR5CorePowerModel.P_total_core]⟩
  · intro d h
    refine ⟨{ core := coreBreakdownOf d.memspec d.workload
              iface := d.computeInterface
              P_total_core := (coreBreakdownOf d.memspec d.workload).P_total_core
              P_total_interface := d.computeInterface.P_total_interface
              P_total := (coreBreakdownOf d.memspec d.workload).P_total_core +
                d.computeInterface.P_total_interface }, ?_, rfl⟩
    simp [DDR5.computeAll, DDR5.computeCore, coreCompute_ok d.memspec d.workload h]

/-- C2 witness: additive decomposition instantiated on the sample device. -/
theorem totals_decompose_additively_witness :
    DDR5CorePowerModel.tREFI_s sampleDevice.memspec ≠ 0 ∧
      (∃ b, coreCompute sampleSpec sampleWorkload = .ok b ∧
        b.P_VDD_core + b.P_VPP_core = b.P_total_core) ∧
      (∃ r, sampleDevice.computeAll = .ok r ∧
        r.P_total_core + r.P_total_interface = r.P_total) :=
  have h : DDR5CorePowerModel.tREFI_s sampleDevice.memspec ≠ 0 := by
    norm_num [DDR5CorePowerModel.tREFI_s, sampleDevice, sampleSpec, sampleTiming]
  ⟨h, totals_decompose_additively.1 sampleSpec sampleWorkload h,
    totals_decompose_additively.2 sampleDevice h⟩

/-- C3: the activate/precharge duty fractions are
`duty_act_pre = min(1, (tRAS+tRP)/tRRDsch)` and `duty_act_vpp = min(1, tRAS/tRRDsch)`
whenever `tRRDsch_ns` is positive, are exactly 0 when `tRRDsch_ns = 0` (no division), clamp
to exactly 1 when `tRRDsch_ns` is positive but smaller than `tRAS + tRP` in nanoseconds,
never exceed 1, and the rail contributions are `vdd·(idd0−idd2n)·duty_act_pre` and
`vpp·(ipp0−ipp2n)·duty_act_vpp`. -/
theorem act_pre_duty_fractions (m : MemSpec) (w : Workload) :
    (w.tRRDsch_ns = 0 →
      DDR5CorePowerModel.duty_act_pre m w = 0 ∧ DDR5CorePowerModel.duty_act_vpp m w = 0) ∧
    (0 < w.tRRDsch_ns →
      DDR5CorePowerModel.duty_act_pre m w =
        min 1 ((DDR5CorePowerModel.tRAS m + DDR5CorePowerModel.tRP m) /
          DDR5CorePowerModel.tRRDsch_s w) ∧
      DDR5CorePowerModel.duty_act_vpp m w =
        min 1 (DDR5CorePowerModel.tRAS m / DDR5CorePowerModel.tRRDsch_s w)) ∧
    (0 < w.tRRDsch_ns →
      w.tRRDsch_ns <
        (DDR5CorePowerModel.tRAS m + DDR5CorePowerModel.tRP m) * 1000000000 →
      DDR5CorePowerModel.duty_act_pre m w = 1) ∧
    DDR5CorePowerModel.duty_act_pre m w ≤ 1 ∧
    DDR5CorePowerModel.duty_act_vpp m w ≤ 1 ∧
    DDR5CorePowerModel.P_ACT_PRE_vdd m w =
      m.mempowerspec.vdd * (m.mempowerspec.idd0 - m.mempowerspec.idd2n) *
        DDR5CorePowerModel.duty_act_pre m w ∧
    DDR5CorePowerModel.P_ACT_vpp m w =
      m.mempowerspec.vpp * (m.mempowerspec.ipp0 - m.mempowerspec.ipp2n) *
        DDR5CorePowerModel.duty_act_vpp m w := by
  have hiff : 0 < DDR5CorePowerModel.tRRDsch_s w ↔ 0 < w.tRRDsch_ns := by
    unfold DDR5CorePowerModel.tRRDsch_s
    constructor <;> intro h <;> nlinarith
  refine ⟨?_, ?_, ?_, ?_, ?_, rfl, rfl⟩
  · intro h0
    have hns : ¬ 0 < DDR5CorePowerModel.tRRDsch_s w := by
      rw [hiff, h0]
      exact lt_irrefl 0
    simp [DDR5CorePowerModel.duty_act_pre, DDR5CorePowerModel.duty_act_vpp, hns]
  · intro hp
    have hs := hiff.mpr hp
    simp [DDR5CorePowerModel.duty_act_pre, DDR5CorePowerModel.duty_act_vpp, hs]
  · intro hp hlt
    have hs := hiff.mpr hp
    have hlt' : DDR5CorePowerModel.tRRDsch_s w <
        DDR5CorePowerModel.tRAS m + DDR5CorePowerModel.tRP m := by
      unfold DDR5CorePowerModel.tRRDsch_s
      nlinarith
    have h1 : (1 : ℚ) ≤ (DDR5CorePowerModel.tRAS m + DDR5CorePowerModel.tRP m) /
        DDR5CorePowerModel.tRRDsch_s w := (one_le_div hs).mpr hlt'.le
    simp [DDR5CorePowerModel.duty_act_pre, hs, min_eq_left h1]
  · unfold DDR5CorePowerModel.duty_act_pre
    split
    · exact min_le_left _ _
    · norm_num
  · unfold DDR5CorePowerModel.duty_act_vpp
    split
    · exact min_le_left _ _
    · norm_num

/-- C3 witness: the zero case on the idle-row workload and the saturation clamp on the
sample workload (`tRRDsch = 4 ns` against a 17.472 ns row cycle). -/
theorem act_pre_duty_fractions_witness :
    idleRowWorkload.tRRDsch_ns = 0 ∧
      DDR5CorePowerModel.duty_act_pre sampleSpec idleRowWorkload = 0 ∧
      DDR5CorePowerModel.duty_act_vpp sampleSpec idleRowWorkload = 0 ∧
      0 < sampleWorkload.tRRDsch_ns ∧
      sampleWorkload.tRRDsch_ns <
        (DDR5CorePowerModel.tRAS sampleSpec + DDR5CorePowerModel.tRP sampleSpec) *
          1000000000 ∧
      DDR5CorePowerModel.duty_act_pre sampleSpec sampleWorkload = 1 :=
  have h0 : idleRowWorkload.tRRDsch_ns = 0 := rfl
  have hp : 0 < sampleWorkload.tRRDsch_ns := by norm_num [sampleWorkload]
  have hlt : sampleWorkload.tRRDsch_ns <
      (DDR5CorePowerModel.tRAS sampleSpec + DDR5CorePowerModel.tRP sampleSpec) *
        1000000000 := by
    norm_num [sampleWorkload, DDR5CorePowerModel.tRAS, DDR5CorePowerModel.tRP,
      sampleSpec, sampleTiming]
  ⟨h0, ((act_pre_duty_fractions sampleSpec idleRowWorkload).1 h0).1,
    ((act_pre_duty_fractions sampleSpec idleRowWorkload).1 h0).2, hp, hlt,
    (act_pre_duty_fractions sampleSpec sampleWorkload).2.2.1 hp hlt⟩

/-- C5: whenever the specification's refresh interval is zero (`REFI = 0`, or `tCK = 0`
making the derived interval zero), the core computation fails — it returns no breakdown —
and the failure propagates unchanged through the device composer (no retry, no
substituted values).  The failure is Python's `ZeroDivisionError` from
`duty_ref = tRFC1_s / tREFI_s`, the realisation of the specification's Domain error. -/
theorem refresh_interval_zero_fails (m : MemSpec) (w : Workload)
    (h : m.memtimingspec.REFI = 0 ∨ m.memtimingspec.tCK = 0) :
    coreCompute m w = .error .zeroDivisionError ∧
      DDR5.computeAll { memspec := m, workload := w } = .error .zeroDivisionError := by
  have hz : DDR5CorePowerModel.tREFI_s m = 0 := by
    unfold DDR5CorePowerModel.tREFI_s
    rcases h with h | h <;> rw [h] <;> simp
  constructor
  · simp [coreCompute, hz]
  · simp [DDR5.computeAll, DDR5.computeCore, coreCompute, hz]

/-- C5 witness: the sample specification with `REFI = 0` fails with the division error,
both directly and through the device composer. -/
theorem refresh_interval_zero_fails_witness :
    (noRefreshSpec.memtimingspec.REFI = 0 ∨ noRefreshSpec.memtimingspec.tCK = 0) ∧
      coreCompute noRefreshSpec sampleWorkload = .error .zeroDivisionError ∧
      DDR5.computeAll { memspec := noRefreshSpec, workload := sampleWorkload } =
        .error .zeroDivisionError :=
  have h : noRefreshSpec.memtimingspec.REFI = 0 ∨ noRefreshSpec.memtimingspec.tCK = 0 :=
    Or.inl rfl
  ⟨h, refresh_interval_zero_fails noRefreshSpec sampleWorkload h⟩

/-- C8: monotonicity of read power — with non-negative `vdd` and `idd4r ≥ idd3n`,
increasing `RDsch_percent` while holding every other workload field fixed never decreases
the computed `P_RD_core`. -/
theorem rdsch_monotonicity (m : MemSpec) (w : Workload) (r₂ : ℚ)
    (h0 : DDR5CorePowerModel.tREFI_s m ≠ 0)
    (hv : 0 ≤ m.mempowerspec.vdd)
    (hi : m.mempowerspec.idd3n ≤ m.mempowerspec.idd4r)
    (hr : w.RDsch_percent ≤ r₂) :
    ∃ b₁ b₂, coreCompute m w = .ok b₁ ∧
      coreCompute m { w with RDsch_percent := r₂ } = .ok b₂ ∧
      b₁.P_RD_core ≤ b₂.P_RD_core := by
  refine ⟨coreBreakdownOf m w, coreBreakdownOf m { w with RDsch_percent := r₂ },
    coreCompute_ok m w h0, coreCompute_ok m _ h0, ?_⟩
  show DDR5CorePowerModel.P_RD_core m w ≤
    DDR5CorePowerModel.P_RD_core m { w with RDsch_percent := r₂ }
  unfold DDR5CorePowerModel.P_RD_core
  have ha : 0 ≤ m.mempowerspec.vdd * (m.mempowerspec.idd4r - m.mempowerspec.idd3n) :=
    mul_nonneg hv (by linarith)
  exact mul_le_mul_of_nonneg_left (div_le_div_of_nonneg_right hr (by norm_num)) ha

/-- C8 witness: the sample workload against a copy with a larger read share. -/
theorem rdsch_monotonicity_witness :
    DDR5CorePowerModel.tREFI_s sampleSpec ≠ 0 ∧
      0 ≤ sampleSpec.mempowerspec.vdd ∧
      sampleSpec.mempowerspec.idd3n ≤ sampleSpec.mempowerspec.idd4r ∧
      sampleWorkload.RDsch_percent ≤ 80 ∧
      (∃ b₁ b₂, coreCompute sampleSpec sampleWorkload = .ok b₁ ∧
        coreCompute sampleSpec { sampleWorkload with RDsch_percent := 80 } = .ok b₂ ∧
        b₁.P_RD_core ≤ b₂.P_RD_core) :=
  have h0 : DDR5CorePowerModel.tREFI_s sampleSpec ≠ 0 := by
    norm_num [DDR5CorePowerModel.tREFI_s, sampleSpec, sampleTiming]
  have hv : 0 ≤ sampleSpec.mempowerspec.vdd := by norm_num [sampleSpec, samplePower]
  have hi : sampleSpec.mempowerspec.idd3n ≤ sampleSpec.mempowerspec.idd4r := by
    norm_num [sampleSpec, samplePower]
  have hr : sampleWorkload.RDsch_percent ≤ 80 := by norm_num [sampleWorkload]
  ⟨h0, hv, hi, hr, rdsch_monotonicity sampleSpec sampleWorkload 80 h0 hv hi hr⟩

/-- C10: the per-pin power helpers are total — for every voltage and resistance pair whose
sum is zero they return 0 instead of dividing by zero, so the termination computation is
defined for every resistance configuration (the guard covers the only division in either
helper). -/
theorem per_pin_power_zero_guard (v r_source r_term : ℚ) (h : r_source + r_term = 0) :
    calc_power_drop_across_term v r_source r_term = 0 ∧
      calc_power_drop_across_driver v r_source r_term = 0 := by
  constructor <;> simp [calc_power_drop_across_term, calc_power_drop_across_driver, h]

/-- C10 witness: the all-zero impedance configuration. -/
theorem per_pin_power_zero_guard_witness :
    ((0 : ℚ) + 0 = 0) ∧
      calc_power_drop_across_term (11 / 10) 0 0 = 0 ∧
      calc_power_drop_across_driver (11 / 10) 0 0 = 0 :=
  ⟨by norm_num, per_pin_power_zero_guard (11 / 10) 0 0 (by norm_num)⟩

/-- Helper: on the sample document with an arbitrary `tCK` entry, ingestion reduces to the
`float(...)` coercion of that entry (every other field is present and numeric). -/
theorem load_memspec_docWithTck (v : JValue) :
    load_memspec (docWithTck v) =
      Except.bind (pyFloat v) (fun t =>
        Except.ok { sampleSpec with memtimingspec := { sampleTiming with tCK := t } }) :=
  rfl

/-- C7 counterexample: a Timing spec whose `tCK` is the non-numeric string `"abc"` makes
`load_memspec` raise `ValueError` (Python's `float()` on an unparseable string), not the
`TypeError` the claim states. -/
theorem tck_nonnumeric_valueerror :
    load_memspec (docWithTck (.str "abc")) = .error (.valueError "abc") ∧
      PyErr.valueError "abc" ≠ PyErr.typeError :=
  ⟨rfl, by decide⟩

/-- C7 amended: a document missing the `vdd` key fails with `KeyError` naming `vdd` (the
realisation of the claimed missing-field failure), and a `tCK` entry that is a string
`float()` cannot parse fails with `ValueError` carrying the offending string — not
`TypeError`, which Python reserves for operands of the wrong type. -/
theorem load_memspec_fault_injection_amended (s : String) (h : parseFloatQ s = none) :
    load_memspec docMissingVdd = .error (.keyError "vdd") ∧
      load_memspec (docWithTck (.str s)) = .error (.valueError s) := by
  constructor
  · rfl
  · rw [load_memspec_docWithTck]
    simp [pyFloat, h, Except.bind]

/-- C7 witness: the amended fault-injection behaviour at the concrete string `"abc"`. -/
theorem load_memspec_fault_injection_amended_witness :
    parseFloatQ "abc" = none ∧
      load_memspec docMissingVdd = .error (.keyError "vdd") ∧
      load_memspec (docWithTck (.str "abc")) = .error (.valueError "abc") :=
  have h : parseFloatQ "abc" = none := rfl
  ⟨h, (load_memspec_fault_injection_amended "abc" h).1,
    (load_memspec_fault_injection_amended "abc" h).2⟩

/-- C9 counterexample: two Specifications identical except for the device I/O width (x8
vs x16) produce the same interface breakdown — with a non-zero data-class contribution —
so the data and strobe pin counts do not scale with the device width carried by the
Specification. -/
theorem interface_width_insensitive :
    DDR5InterfacePowerModel.compute sampleSpec sampleWorkload =
      DDR5InterfacePowerModel.compute wideSpec sampleWorkload ∧
      sampleSpec.memarchitecturespec.width ≠ wideSpec.memarchitecturespec.width ∧
      (DDR5InterfacePowerModel.compute sampleSpec sampleWorkload).P_DQ_WRITE ≠ 0 := by
  refine ⟨rfl, by decide, ?_⟩
  norm_num [DDR5InterfacePowerModel.compute,
    DDR5InterfacePowerModel.calculate_termination_power, calc_power_drop_across_term,
    DDR5InterfacePowerModel.num_dq, sampleSpec, samplePower, sampleWorkload]

/-- C9 amended: every signal class's pin count is a fixed per-subchannel constant
(`num_dq = 32`, `num_dqs = 8`, `num_ca = 14`, `num_ck = 2`, `num_wck = 8`; chip selects
default to the rank count), and the interface computation depends on the Specification
only through `vddq` — the device data width does not influence any pin count or power
term. -/
theorem interface_pin_counts_amended :
    DDR5InterfacePowerModel.num_dq = 32 ∧
      DDR5InterfacePowerModel.num_dqs = 8 ∧
      DDR5InterfacePowerModel.num_ca = 14 ∧
      DDR5InterfacePowerModel.num_ck = 2 ∧
      DDR5InterfacePowerModel.num_wck = 8 ∧
      ∀ (m₁ m₂ : MemSpec) (w : Workload),
        m₁.mempowerspec.vddq = m₂.mempowerspec.vddq →
        DDR5InterfacePowerModel.compute m₁ w = DDR5InterfacePowerModel.compute m₂ w := by
  refine ⟨rfl, rfl, rfl, rfl, rfl, ?_⟩
  intro m₁ m₂ w h
  unfold DDR5InterfacePowerModel.compute
  rw [h]

/-- C9 witness: width-insensitivity instantiated on the x8 and x16 sample
specifications. -/
theorem interface_pin_counts_amended_witness :
    sampleSpec.mempowerspec.vddq = wideSpec.mempowerspec.vddq ∧
      DDR5InterfacePowerModel.compute sampleSpec sampleWorkload =
        DDR5InterfacePowerModel.compute wideSpec sampleWorkload :=
  have h : sampleSpec.mempowerspec.vddq = wideSpec.mempowerspec.vddq := rfl
  ⟨h, interface_pin_counts_amended.2.2.2.2.2 sampleSpec wideSpec sampleWorkload h⟩

/-- Helper: accumulating `n` further copies of the same breakdown onto an accumulator
already holding `i ≥ 1` copies yields `i + n` copies. -/
theorem accumulateCore_replicate (dev : DDR5) (cb : CoreBreakdown)
    (h : dev.computeCore = .ok cb) (n : ℕ) :
    ∀ i : ℕ, 1 ≤ i →
      accumulateCore (List.replicate n dev) (some (natMulDict i (coreDict cb))) =
        .ok (some (natMulDict (i + n) (coreDict cb))) := by
  induction n with
  | zero => intro i hi; simp [accumulateCore]
  | succ n ih =>
    intro i hi
    rw [List.replicate_succ]
    simp only [accumulateCore, h, Except.instMonad, Except.bind, Option.getD_some]
    rw [counterAdd_natMulDict i hi]
    have e : i + (n + 1) = (i + 1) + n := by omega
    rw [e]
    exact ih (i + 1) (by omega)

/-- Helper: the full accumulation loop over `n ≥ 1` identical devices produces `n` merged
copies of the per-device core breakdown. -/
theorem accumulateCore_replicate_pos (dev : DDR5) (cb : CoreBreakdown)
    (h : dev.computeCore = .ok cb) (n : ℕ) (hn : 1 ≤ n) :
    accumulateCore (List.replicate n dev) none =
      .ok (some (natMulDict n (coreDict cb))) := by
  obtain ⟨m, rfl⟩ : ∃ m, n = m + 1 := ⟨n - 1, by omega⟩
  rw [List.replicate_succ]
  simp only [accumulateCore, h, Except.instMonad, Except.bind, Option.getD_none]
  rw [counterAdd_emptyDict]
  have e : m + 1 = 1 + m := by omega
  rw [e]
  exact accumulateCore_replicate dev cb h m 1 le_rfl

/-- Helper: the core computation on the all-zero power record succeeds with the all-zero
breakdown. -/
theorem computeCore_zeroDevice : zeroDevice.computeCore = .ok zeroBreakdown := by
  simp [DDR5.computeCore, zeroDevice, coreCompute, zeroSpec, zeroPower, sampleSpec,
    sampleTiming, sampleWorkload, zeroBreakdown, coreBreakdownOf,
    DDR5CorePowerModel.tREFI_s, DDR5CorePowerModel.P_PRE_STBY_core,
    DDR5CorePowerModel.P_ACT_STBY_core, DDR5CorePowerModel.P_ACT_PRE_core,
    DDR5CorePowerModel.P_RD_core, DDR5CorePowerModel.P_WR_core,
    DDR5CorePowerModel.P_REF_core, DDR5CorePowerModel.P_VDD_core,
    DDR5CorePowerModel.P_VPP_core, DDR5CorePowerModel.P_total_core,
    DDR5CorePowerModel.P_background_vdd, DDR5CorePowerModel.P_REF_vdd,
    DDR5CorePowerModel.P_REF_vpp, DDR5CorePowerModel.P_ACT_PRE_vdd,
    DDR5CorePowerModel.P_ACT_vpp, DDR5CorePowerModel.duty_ref]

/-- C4 counterexample: a one-device DIMM over a well-formed Specification whose powers
are all zero makes `DIMM.compute_all` raise `KeyError("P_total_core")` instead of
returning an aggregate — the Counter-based merge drops every non-positive entry, so the
accumulated core dict loses the `P_total_core` key before line 78 reads it back. -/
theorem dimm_zero_power_keyerror :
    DIMM.computeAll
        { dram_list := some [zeroDevice], interface_input := sampleChannelInputs } =
      .error (.keyError "P_total_core") := by
  obtain ⟨ib, hib⟩ : ∃ ib, ChannelIf.compute_all sampleChannelInputs = .ok ib := ⟨_, rfl⟩
  simp only [DIMM.computeAll, accumulateCore, computeCore_zeroDevice, hib]
  simp [Except.instMonad, Except.bind, counterAdd, coreDict, zeroBreakdown, emptyDict]

/-- C4 amended: for a DIMM of `n ≥ 1` identical devices whose per-device core total is
positive, and a channel interface computation with positive total, `compute_all` returns
an aggregate whose `P_total_core` is exactly `n` times the per-device core total, whose
`P_total_interface` is exactly the one channel-level interface total (not `n` times it),
and whose `P_total` is their sum.  (The positivity hypotheses are forced by the
Counter-based merge, which drops non-positive entries — see the counterexample.) -/
theorem dimm_summation_amended (n : ℕ) (hn : 1 ≤ n) (dev : DDR5) (cb : CoreBreakdown)
    (ii : ChannelIf.Inputs) (ib : ChannelIf.Breakdown)
    (hcore : dev.computeCore = .ok cb) (hpos : 0 < cb.P_total_core)
    (hif : ChannelIf.compute_all ii = .ok ib) (hifpos : 0 < ib.P_total_interface) :
    ∃ r, DIMM.computeAll
        { dram_list := some (List.replicate n dev), interface_input := ii } = .ok r ∧
      r "P_total_core" = some ((n : ℚ) * cb.P_total_core) ∧
      r "P_total_interface" = some ib.P_total_interface ∧
      r "P_total" = some ((n : ℚ) * cb.P_total_core + ib.P_total_interface) := by
  have hn0 : 0 < n := hn
  have hnq : (0 : ℚ) < (n : ℚ) := by exact_mod_cast hn0
  have hkey : natMulDict n (coreDict cb) "P_total_core" =
      some ((n : ℚ) * cb.P_total_core) := by
    have hp : (0 : ℚ) < (n : ℚ) * cb.P_total_core := mul_pos hnq hpos
    simp [natMulDict, coreDict, hp]
  have hacc := accumulateCore_replicate_pos dev cb hcore n hn
  refine ⟨fun k =>
      if k = "P_total" then some ((n : ℚ) * cb.P_total_core + ib.P_total_interface)
      else counterAdd (natMulDict n (coreDict cb)) (channelIfDict ib) k, ?_, ?_, ?_, ?_⟩
  · simp only [DIMM.computeAll, hacc, hif, Except.instMonad, Except.bind, hkey,
      Option.getD_some]
    rfl
  · simp [counterAdd, hkey, channelIfDict, mul_pos hnq hpos]
  · have h2 : (0 : ℚ) < 0 + ib.P_total_interface := by simpa using hifpos
    simp [counterAdd, natMulDict, coreDict, channelIfDict, h2, hifpos]
  · simp

/-- C4 witness: the amended DIMM summation instantiated with two identical sample
devices and the sample channel interface inputs. -/
theorem dimm_summation_amended_witness :
    (1 : ℕ) ≤ 2 ∧
      ∃ cb ib, sampleDevice.computeCore = .ok cb ∧ 0 < cb.P_total_core ∧
        ChannelIf.compute_all sampleChannelInputs = .ok ib ∧
        0 < ib.P_total_interface ∧
        ∃ r, DIMM.computeAll
            { dram_list := some (List.replicate 2 sampleDevice),
              interface_input := sampleChannelInputs } = .ok r ∧
          r "P_total_core" = some ((2 : ℚ) * cb.P_total_core) ∧
          r "P_total_interface" = some ib.P_total_interface ∧
          r "P_total" = some ((2 : ℚ) * cb.P_total_core + ib.P_total_interface) := by
  have hne : DDR5CorePowerModel.tREFI_s sampleSpec ≠ 0 := by
    norm_num [DDR5CorePowerModel.tREFI_s, sampleSpec, sampleTiming]
  have hcore : sampleDevice.computeCore =
      .ok (coreBreakdownOf sampleSpec sampleWorkload) :=
    coreCompute_ok sampleSpec sampleWorkload hne
  have hpos : 0 < (coreBreakdownOf sampleSpec sampleWorkload).P_total_core := by
    norm_num [coreBreakdownOf, sampleSpec, sampleTiming, samplePower, sampleWorkload,
      min_def, DDR5CorePowerModel.tRAS, DDR5CorePowerModel.tRP,
      DDR5CorePowerModel.tRFC1_s, DDR5CorePowerModel.tREFI_s,
      DDR5CorePowerModel.tRRDsch_s, DDR5CorePowerModel.duty_ref,
      DDR5CorePowerModel.duty_act_pre, DDR5CorePowerModel.duty_act_vpp,
      DDR5CorePowerModel.P_PRE_STBY_core, DDR5CorePowerModel.P_ACT_STBY_core,
      DDR5CorePowerModel.P_background_vdd, DDR5CorePowerModel.P_REF_vdd,
      DDR5CorePowerModel.P_REF_vpp, DDR5CorePowerModel.P_RD_core,
      DDR5CorePowerModel.P_WR_core, DDR5CorePowerModel.P_ACT_PRE_vdd,
      DDR5CorePowerModel.P_ACT_vpp, DDR5CorePowerModel.P_VDD_core,
      DDR5CorePowerModel.P_VPP_core, DDR5CorePowerModel.P_total_core]
  obtain ⟨ib, hib, hibpos⟩ : ∃ ib, ChannelIf.compute_all sampleChannelInputs = .ok ib ∧
      0 < ib.P_total_interface := by
    refine ⟨_, rfl, ?_⟩
    have hdiv : Int.fdiv 64 8 = 8 := by decide
    norm_num [ChannelIf.compute_all, ChannelIf.compute_termination, ChannelIf.solve_power,
      ChannelIf.floorDiv, ChannelIf.optMul, sampleChannelInputs, hdiv]
  exact ⟨by norm_num, coreBreakdownOf sampleSpec sampleWorkload, ib, hcore, hpos, hib,
    hibpos, dimm_summation_amended 2 (by norm_num) sampleDevice _ sampleChannelInputs ib
      hcore hpos hib hibpos⟩

/-- C6: `DIMM.compute_all` on an *empty* device list does not return a zero-watt
breakdown, but it also does not raise the intended rejection: the `is not None` guard
accepts the empty list, the accumulation loop leaves the core accumulator as `None`, and
line 78 then raises `TypeError` subscripting `None` — the deliberate
`ValueError("No DRAM devices")` rejection only fires when the device list is `None`
itself. -/
theorem dimm_empty_device_list_typeerror :
    DIMM.computeAll { dram_list := some [], interface_input := sampleChannelInputs } =
        .error .typeError ∧
      DIMM.computeAll { dram_list := none, interface_input := sampleChannelInputs } =
        .error (.valueError "No DRAM devices") :=
  ⟨rfl, rfl⟩
